import Mathlib

/-!
Verification development for the expression-builder repository.

The definitions below are a shallow embedding of the TypeScript source:

* `src/app/page.tsx` — the expression data model (`ExpressionType`,
  `CalculationType`), the value classifier `analyzeSimpleValue`, the
  right-hand-side analyzer `analyzeRightValue`, the two serializers
  `generateJSON` / `generateJSONLogic`, the tag-configuration handler
  `handleTagsChange`, and the reference-only `onChange` guards.
* `src/components/ui/combobox.tsx` — the searchable selector with lazy
  loading (`filteredOptions`, `loadMoreItems`, the `searchTerm` reset
  effect, `handleKeyDown`).
* `src/components/ui/smart-combobox.tsx` — the free-text variant
  (`filteredOptions` with the exact-match exception, `handleInputChange`,
  the Enter branch of `handleKeyDown`).

JavaScript runtime values are modelled as follows: strings are Lean
`String`s, JS numbers produced by `Number(...)` are modelled exactly at the
lexical level (`JSNum`: a rational for finite literals, plus the two
infinities; `none` stands for `NaN`), and JSON trees are the inductive
`Json` whose object fields keep insertion order, as JS objects do.  No
claim below depends on IEEE-754 rounding, so the exact rational value of a
numeric literal is a faithful representation of the code's behaviour.
-/

namespace ExprBuilder

/-- Whitespace test matching the set accepted by JavaScript
`String.prototype.trim` and by the `StrWhiteSpace` production of the
`ToNumber` string grammar (ASCII whitespace, NBSP, BOM, the Unicode
space separators and the two line separators). -/
def wsChar (c : Char) : Bool :=
  c = ' ' ∨ c = '\t' ∨ c = '\n' ∨ c.toNat = 0x0b ∨ c.toNat = 0x0c ∨ c = '\r' ∨
  c.toNat = 0xA0 ∨ c.toNat = 0x1680 ∨ (0x2000 ≤ c.toNat ∧ c.toNat ≤ 0x200A) ∨
  c.toNat = 0x2028 ∨ c.toNat = 0x2029 ∨ c.toNat = 0x202F ∨ c.toNat = 0x205F ∨
  c.toNat = 0x3000 ∨ c.toNat = 0xFEFF

/-- Strip leading and trailing JS whitespace from a character list. -/
def trimWSList (cs : List Char) : List Char :=
  ((cs.dropWhile wsChar).reverse.dropWhile wsChar).reverse

/-- Embedding of JavaScript `String.prototype.trim`. -/
def jsTrim (s : String) : String :=
  String.mk (trimWSList s.data)

/-- Result of JavaScript `Number(string)` when it is not `NaN`: either a
finite value (represented exactly as the rational denoted by the literal)
or one of the two infinities. -/
inductive JSNum where
  | finite (q : ℚ) : JSNum
  | posInf : JSNum
  | negInf : JSNum
  deriving DecidableEq

/-- Decimal digit value of a character, if any. -/
def digitVal (c : Char) : Option Nat :=
  if '0' ≤ c ∧ c ≤ '9' then some (c.toNat - 48) else none

/-- Hexadecimal digit value of a character, if any. -/
def hexVal (c : Char) : Option Nat :=
  if '0' ≤ c ∧ c ≤ '9' then some (c.toNat - 48)
  else if 'a' ≤ c ∧ c ≤ 'f' then some (c.toNat - 87)
  else if 'A' ≤ c ∧ c ≤ 'F' then some (c.toNat - 55)
  else none

/-- Octal digit value of a character, if any. -/
def octVal (c : Char) : Option Nat :=
  if '0' ≤ c ∧ c ≤ '7' then some (c.toNat - 48) else none

/-- Binary digit value of a character, if any. -/
def binVal (c : Char) : Option Nat :=
  if c = '0' then some 0 else if c = '1' then some 1 else none

/-- Consume a maximal run of digits (for the given digit-value function and
base), returning the accumulated value, the number of digits consumed and
the remaining characters. -/
def takeDigits (val : Char → Option Nat) (base : Nat) :
    List Char → Nat × Nat × List Char
  | [] => (0, 0, [])
  | c :: cs =>
    match val c with
    | some d =>
      let r := takeDigits val base cs
      (d * base ^ r.2.1 + r.1, r.2.1 + 1, r.2.2)
    | none => (0, 0, c :: cs)

/-- The rational denoted by a decimal literal with integer part `intPart`,
fractional digits `frac` (of which there are `k`) and exponent `e`:
`(intPart + frac / 10^k) * 10^e`, built with a single `mkRat` over natural
arithmetic. -/
def decVal (intPart frac k : Nat) (e : Int) : ℚ :=
  if 0 ≤ e then
    mkRat ((intPart * 10 ^ k + frac) * 10 ^ e.toNat : Nat) (10 ^ k)
  else
    mkRat ((intPart * 10 ^ k + frac : Nat) : Int) (10 ^ k * 10 ^ (-e).toNat)

/-- Parse an `ExponentPart` (`e`/`E`, optional sign, at least one digit) of
the JS string numeric grammar, returning the exponent and the rest. -/
def parseExpPart (cs : List Char) : Option (Int × List Char) :=
  match cs with
  | c :: cs1 =>
    if c = 'e' ∨ c = 'E' then
      match cs1 with
      | '+' :: cs2 =>
        let r := takeDigits digitVal 10 cs2
        if r.2.1 = 0 then none else some ((r.1 : Int), r.2.2)
      | '-' :: cs2 =>
        let r := takeDigits digitVal 10 cs2
        if r.2.1 = 0 then none else some (-(r.1 : Int), r.2.2)
      | _ =>
        let r := takeDigits digitVal 10 cs1
        if r.2.1 = 0 then none else some ((r.1 : Int), r.2.2)
    else none
  | [] => none

/-- Greedy optional exponent: a malformed exponent is simply not consumed
(the leftover characters then make the whole literal fail). -/
def tryExpPart (cs : List Char) : Int × List Char :=
  match parseExpPart cs with
  | some r => r
  | none => (0, cs)

/-- Parse a `StrUnsignedDecimalLiteral` other than `Infinity`:
`Digits [. Digits] [Exp]` or `. Digits [Exp]`.  Returns the denoted
rational and the remaining characters. -/
def parseUDec (cs : List Char) : Option (ℚ × List Char) :=
  match cs with
  | '.' :: cs1 =>
    let f := takeDigits digitVal 10 cs1
    if f.2.1 = 0 then none
    else
      let e := tryExpPart f.2.2
      some (decVal 0 f.1 f.2.1 e.1, e.2)
  | _ =>
    let n := takeDigits digitVal 10 cs
    if n.2.1 = 0 then none
    else
      match n.2.2 with
      | '.' :: cs2 =>
        let f := takeDigits digitVal 10 cs2
        let e := tryExpPart f.2.2
        some (decVal n.1 f.1 f.2.1 e.1, e.2)
      | rest =>
        let e := tryExpPart rest
        some (decVal n.1 0 0 e.1, e.2)

/-- Parse a signed `StrDecimalLiteral` (optional sign, then `Infinity` or an
unsigned decimal literal), requiring full consumption of the input. -/
def parseSignedDec (cs : List Char) : Option JSNum :=
  let sgn : Bool × List Char :=
    match cs with
    | '+' :: r => (false, r)
    | '-' :: r => (true, r)
    | _ => (false, cs)
  if sgn.2 = "Infinity".data then
    some (if sgn.1 then JSNum.negInf else JSNum.posInf)
  else
    match parseUDec sgn.2 with
    | some qr =>
      if qr.2.isEmpty then
        some (JSNum.finite (if sgn.1 then -qr.1 else qr.1))
      else none
    | none => none

/-- Parse a `NonDecimalIntegerLiteral` body (after a `0x`/`0o`/`0b` prefix),
requiring at least one digit and full consumption. -/
def parseRadix (val : Char → Option Nat) (base : Nat) (cs : List Char) :
    Option JSNum :=
  let r := takeDigits val base cs
  if 0 < r.2.1 ∧ r.2.2.isEmpty then some (JSNum.finite (mkRat (r.1 : Int) 1))
  else none

/-- Embedding of JavaScript `Number(string)`: `none` models `NaN`, and
`some` carries the denoted value.  Follows the ECMAScript
`StringNumericLiteral` grammar: optional whitespace around either nothing
(value `0`), a signed decimal literal (including `Infinity`), or an
unsigned `0x`/`0o`/`0b` literal. -/
def jsToNumber (s : String) : Option JSNum :=
  let cs := trimWSList s.data
  match cs with
  | [] => some (JSNum.finite 0)
  | '0' :: c :: rest =>
    if c = 'x' ∨ c = 'X' then parseRadix hexVal 16 rest
    else if c = 'o' ∨ c = 'O' then parseRadix octVal 8 rest
    else if c = 'b' ∨ c = 'B' then parseRadix binVal 2 rest
    else parseSignedDec cs
  | _ => parseSignedDec cs

/-- JSON value tree, modelling the plain JavaScript objects built by the
serializers.  Object fields are kept in insertion order, as JavaScript
preserves string-key insertion order, so structural equality of `Json`
values is bit-exact equality of the serialized output. -/
inductive Json where
  | str (s : String) : Json
  | num (n : JSNum) : Json
  | obj (fields : List (String × Json)) : Json
  | arr (elems : List Json) : Json

/-- Option record of the selector widgets (`ComboBoxOption` in the source):
`value` is the canonical identifier (the spec's `id`), `label` the
searchable display text. -/
structure ComboBoxOption where
  value : String
  label : String
  deriving DecidableEq

/-- `CalculationType` from `src/app/page.tsx`. -/
structure CalculationType where
  leftTag : String
  operator : String
  rightValue : String
  deriving DecidableEq

/-- `ExpressionType` from `src/app/page.tsx`. -/
structure ExpressionType where
  leftTag : String
  operator : String
  rightValue : String
  calculation : Option CalculationType
  deriving DecidableEq

/-- The two right-hand-side entry modes of the page (`valueMode` state). -/
inductive ValueMode where
  | value : ValueMode
  | calculation : ValueMode
  deriving DecidableEq

/-- Typed view of the object returned by `analyzeSimpleValue`
(`src/app/page.tsx` lines 211–226): `tag` is the `{type:'tag'}` branch,
`constNum` the `{type:'constant'}` branch whose value is the parsed JS
number, and `constStr` the `{type:'constant'}` branch carrying the raw
string.  The spec's `ValueAnalysis` kinds `"reference"`, `"number"` and
`"string"` name these three branches in that order. -/
inductive Analysis where
  | tag (v : String) : Analysis
  | constNum (n : JSNum) : Analysis
  | constStr (v : String) : Analysis
  deriving DecidableEq

/-- Embedding of `analyzeSimpleValue` (`src/app/page.tsx` lines 211–226):
first the exact tag-id check against `availableTags`, then the
`!isNaN(Number(value)) && value.trim() !== ''` numeric check, else a string
constant. -/
def analyzeSimpleValue (tags : List ComboBoxOption) (value : String) :
    Analysis :=
  if tags.any (fun t => t.value = value) then Analysis.tag value
  else
    match jsToNumber value with
    | some n => if jsTrim value = "" then Analysis.constStr value
                else Analysis.constNum n
    | none => Analysis.constStr value

/-- Typed view of the object returned by `analyzeRightValue`
(`src/app/page.tsx` lines 187–204): either the simple-value analysis, or
the calculation structure. -/
inductive RightAnalysis where
  | simple (a : Analysis) : RightAnalysis
  | calc (leftTag : String) (operator : String) (right : Analysis) :
      RightAnalysis
  deriving DecidableEq

/-- Embedding of `analyzeRightValue` (`src/app/page.tsx` lines 187–204):
the calculation shape is produced only when `valueMode === 'calculation'`
and `expression.calculation` is set. -/
def analyzeRightValue (tags : List ComboBoxOption) (mode : ValueMode)
    (expr : ExpressionType) : RightAnalysis :=
  match mode, expr.calculation with
  | ValueMode.calculation, some c =>
    RightAnalysis.calc c.leftTag c.operator
      (analyzeSimpleValue tags c.rightValue)
  | _, _ => RightAnalysis.simple (analyzeSimpleValue tags expr.rightValue)

/-- The JavaScript object denoted by an `analyzeSimpleValue` result:
`{type:'tag'|'constant', value: ...}` exactly as the source returns it. -/
def analysisToJson : Analysis → Json
  | Analysis.tag v =>
    Json.obj [("type", Json.str "tag"), ("value", Json.str v)]
  | Analysis.constNum n =>
    Json.obj [("type", Json.str "constant"), ("value", Json.num n)]
  | Analysis.constStr v =>
    Json.obj [("type", Json.str "constant"), ("value", Json.str v)]

/-- The JavaScript object denoted by an `analyzeRightValue` result. -/
def rightAnalysisToJson : RightAnalysis → Json
  | RightAnalysis.simple a => analysisToJson a
  | RightAnalysis.calc l op r =>
    Json.obj [("type", Json.str "calculation"),
      ("value", Json.obj [
        ("left", Json.obj [("type", Json.str "tag"), ("value", Json.str l)]),
        ("operator", Json.str op),
        ("right", analysisToJson r)])]

/-- Embedding of `generateJSON` (`src/app/page.tsx` lines 232–244). -/
def generateJSON (tags : List ComboBoxOption) (mode : ValueMode)
    (expr : ExpressionType) : Json :=
  Json.obj [
    ("type", Json.str "comparison"),
    ("left", Json.obj [("type", Json.str "tag"),
      ("value", Json.str expr.leftTag)]),
    ("operator", Json.str expr.operator),
    ("right", rightAnalysisToJson (analyzeRightValue tags mode expr))]

/-- The `operatorMap` lookup of `generateJSONLogic`
(`src/app/page.tsx` lines 255–262). -/
def operatorMapLookup (op : String) : Option String :=
  if op = "=" then some "=="
  else if op = "!=" then some "!="
  else if op = ">" then some ">"
  else if op = "<" then some "<"
  else if op = ">=" then some ">="
  else if op = "<=" then some "<="
  else none

/-- `operatorMap[expression.operator] || expression.operator`: every string
in the map is non-empty, hence truthy, so the fallback fires exactly on a
missing key. -/
def jsonLogicOperator (op : String) : String :=
  (operatorMapLookup op).getD op

/-- The `calcOperatorMap` lookup of `generateJSONLogic`
(`src/app/page.tsx` lines 271–276). -/
def calcOperatorMapLookup (op : String) : Option String :=
  if op = "+" then some "+"
  else if op = "-" then some "-"
  else if op = "*" then some "*"
  else if op = "/" then some "/"
  else none

/-- `calcOperatorMap[calc.operator] || calc.operator`. -/
def jsonLogicCalcOperator (op : String) : String :=
  (calcOperatorMapLookup op).getD op

/-- JSONLogic rendering of a simple-value analysis: a tag becomes
`{"var": name}`, a constant its bare literal
(`src/app/page.tsx` lines 281–283 and 302–304). -/
def renderJsonLogicValue : Analysis → Json
  | Analysis.tag v => Json.obj [("var", Json.str v)]
  | Analysis.constNum n => Json.num n
  | Analysis.constStr v => Json.str v

/-- Embedding of `generateJSONLogic` (`src/app/page.tsx` lines 251–312). -/
def generateJSONLogic (tags : List ComboBoxOption) (mode : ValueMode)
    (expr : ExpressionType) : Json :=
  let op := jsonLogicOperator expr.operator
  match analyzeRightValue tags mode expr with
  | RightAnalysis.calc l cop r =>
    Json.obj [(op, Json.arr [
      Json.obj [("var", Json.str expr.leftTag)],
      Json.obj [(jsonLogicCalcOperator cop, Json.arr [
        Json.obj [("var", Json.str l)],
        renderJsonLogicValue r])]])]
  | RightAnalysis.simple a =>
    Json.obj [(op, Json.arr [
      Json.obj [("var", Json.str expr.leftTag)],
      renderJsonLogicValue a])]

/-- Prefix test on character lists. -/
def isPrefixList : List Char → List Char → Bool
  | [], _ => true
  | _ :: _, [] => false
  | a :: as, b :: bs => a = b && isPrefixList as bs

/-- Substring test on character lists (embedding of JavaScript
`String.prototype.includes`): the needle occurs contiguously in the
haystack. -/
def containsSub (hay needle : List Char) : Bool :=
  if isPrefixList needle hay then true
  else
    match hay with
    | [] => false
    | _ :: t => containsSub t needle

/-- ASCII lowercasing of one character.  The selector filters lowercase
with `toLowerCase()`; every identifier and label this system handles is
ASCII, where the JavaScript mapping and this one agree. -/
def charLower (c : Char) : Char :=
  if 'A' ≤ c ∧ c ≤ 'Z' then Char.ofNat (c.toNat + 32) else c

/-- Case-insensitive substring test `a.toLowerCase().includes(b.toLowerCase())`
as used by the selector filters. -/
def lowerIncludes (a b : String) : Bool :=
  containsSub (a.data.map charLower) (b.data.map charLower)

/-- Embedding of `filteredOptions` of the plain selector
(`src/components/ui/combobox.tsx` lines 61–64): case-insensitive substring
match of the search term against label or value. -/
def comboFiltered (options : List ComboBoxOption) (searchTerm : String) :
    List ComboBoxOption :=
  options.filter fun option =>
    lowerIncludes option.label searchTerm || lowerIncludes option.value searchTerm

/-- Embedding of `filteredOptions` of the free-text selector
(`src/components/ui/smart-combobox.tsx` lines 43–53): if the input exactly
matches some option value and is non-empty, every option is kept; otherwise
the same substring filter as the plain selector. -/
def smartFiltered (options : List ComboBoxOption) (inputValue : String) :
    List ComboBoxOption :=
  options.filter fun option =>
    if options.any (fun opt => opt.value = inputValue) ∧ 0 < inputValue.length
    then true
    else lowerIncludes option.label inputValue ||
      lowerIncludes option.value inputValue

/-- Default of the `batchSize` prop of both selector widgets. -/
def defaultBatchSize : Nat := 20

/-- State of one plain selector instance
(`src/components/ui/combobox.tsx`): the `searchTerm`, `highlightedIndex`,
`visibleCount` and `isLoading` hooks, plus `pendingLen`, which records an
in-flight `setTimeout` scheduled by `loadMoreItems` together with the
`filteredOptions.length` its closure captured (`none` when no load is
pending).  `enableLazyLoading` is `true`, its default, throughout. -/
structure ComboState where
  searchTerm : String
  highlightedIndex : Int
  visibleCount : Nat
  isLoading : Bool
  pendingLen : Option Nat
  deriving DecidableEq

/-- Initial selector state: `searchTerm` empty, no highlight,
`visibleCount = batchSize`, no load pending. -/
def initCombo (batch : Nat) : ComboState :=
  { searchTerm := "", highlightedIndex := -1, visibleCount := batch,
    isLoading := false, pendingLen := none }

/-- Length of the current `filteredOptions`. -/
def filteredLen (options : List ComboBoxOption) (st : ComboState) : Nat :=
  (comboFiltered options st.searchTerm).length

/-- `hasMoreItems` (`src/components/ui/combobox.tsx` line 72). -/
def hasMoreItems (options : List ComboBoxOption) (st : ComboState) : Bool :=
  st.visibleCount < filteredLen options st

/-- Length of `visibleOptions = filteredOptions.slice(0, visibleCount)`. -/
def visLen (options : List ComboBoxOption) (st : ComboState) : Nat :=
  min st.visibleCount (filteredLen options st)

/-- Embedding of `loadMoreItems` (`src/components/ui/combobox.tsx` lines
94–103): a no-op unless more items remain and no load is pending; otherwise
it sets `isLoading` and schedules a callback that has captured the current
`filteredOptions.length`. -/
def loadMoreItems (options : List ComboBoxOption) (st : ComboState) :
    ComboState :=
  if hasMoreItems options st ∧ ¬st.isLoading then
    { st with isLoading := true, pendingLen := some (filteredLen options st) }
  else st

/-- Firing of the scheduled `setTimeout` callback of `loadMoreItems`: with
a pending load it advances `visibleCount` by one batch clamped to the
captured length and clears `isLoading`; with none it does nothing. -/
def timerFire (batch : Nat) (st : ComboState) : ComboState :=
  match st.pendingLen with
  | some len =>
    { st with
      visibleCount := min (st.visibleCount + batch) len
      isLoading := false
      pendingLen := none }
  | none => st

/-- A search-term change: the `searchTerm` setter together with the
`useEffect` on `[searchTerm]` (`src/components/ui/combobox.tsx` lines
78–81), which resets `visibleCount` to `batchSize` and the highlight to
`-1`.  The pending timeout is left untouched: nothing in the source clears
it. -/
def setSearchTerm (batch : Nat) (t : String) (st : ComboState) : ComboState :=
  { st with searchTerm := t, visibleCount := batch, highlightedIndex := -1 }

/-- The `ArrowDown` branch of `handleKeyDown` in the `Open` state
(`src/components/ui/combobox.tsx` lines 156–167): advance the highlight,
wrapping past the last visible index to `0`, and call `loadMoreItems` when
the new index is within 3 of the visible frontier and more items remain. -/
def arrowDown (options : List ComboBoxOption) (st : ComboState) :
    ComboState :=
  let len : Int := (visLen options st : Int)
  let newIndex : Int :=
    if st.highlightedIndex < len - 1 then st.highlightedIndex + 1 else 0
  let st1 :=
    if newIndex ≥ len - 3 ∧ hasMoreItems options st then loadMoreItems options st
    else st
  { st1 with highlightedIndex := newIndex }

/-- The `ArrowUp` branch of `handleKeyDown` in the `Open` state
(`src/components/ui/combobox.tsx` lines 168–174): move the highlight up,
wrapping from `0` (or no highlight) to the last visible index. -/
def arrowUp (options : List ComboBoxOption) (st : ComboState) : ComboState :=
  { st with highlightedIndex :=
      if st.highlightedIndex > 0 then st.highlightedIndex - 1
      else (visLen options st : Int) - 1 }

/-- One request/completion round of the pager with no intervening term
change: `loadMoreItems` followed by its callback firing. -/
def loadRound (options : List ComboBoxOption) (batch : Nat)
    (st : ComboState) : ComboState :=
  timerFire batch (loadMoreItems options st)

/-- State after `k` request/completion rounds from the initial state. -/
def pagerIterate (options : List ComboBoxOption) (batch : Nat) :
    Nat → ComboState
  | 0 => initCombo batch
  | k + 1 => loadRound options batch (pagerIterate options batch k)

/-- State of one free-text selector instance
(`src/components/ui/smart-combobox.tsx`): `isOpen`, `inputValue`,
`highlightedIndex` and `visibleCount` hooks, plus `bound`, the `value` prop
as maintained by the parent through `onChange` (the value-entry instances
of `src/app/page.tsx` store the argument verbatim into the Expression). -/
structure SmartState where
  isOpen : Bool
  inputValue : String
  highlightedIndex : Int
  visibleCount : Nat
  bound : String
  deriving DecidableEq

/-- Embedding of `handleInputChange`
(`src/components/ui/smart-combobox.tsx` lines 126–131) together with the
`useEffect` on `[inputValue]`: the new text is stored, committed through
`onChange` at once, the highlight reset to `-1` and the visible count reset
to one batch. -/
def smartInputChange (batch : Nat) (st : SmartState) (newValue : String) :
    SmartState :=
  { st with
    inputValue := newValue
    bound := newValue
    highlightedIndex := -1
    visibleCount := batch }

/-- `visibleOptions` of the free-text selector. -/
def smartVisible (options : List ComboBoxOption) (st : SmartState) :
    List ComboBoxOption :=
  (smartFiltered options st.inputValue).take st.visibleCount

/-- The `Enter` branch of `handleKeyDown` in the open state
(`src/components/ui/smart-combobox.tsx` lines 165–182): with a valid
highlight the highlighted option is committed and the dropdown closed;
otherwise the dropdown merely closes, leaving the already-committed value
as it is. -/
def smartEnter (options : List ComboBoxOption) (st : SmartState) :
    SmartState :=
  let vis := smartVisible options st
  if 0 ≤ st.highlightedIndex ∧ st.highlightedIndex < (vis.length : Int) then
    let o := vis.getD st.highlightedIndex.toNat ⟨"", ""⟩
    { st with inputValue := o.value, bound := o.value, isOpen := false }
  else { st with isOpen := false }

/-- The comparison operator of the freshly initialized Expression
(`src/app/page.tsx` line 104). -/
def defaultComparisonOperator : String := "="

/-- Split a character list at every occurrence of the separator, keeping
empty pieces, as JavaScript `String.prototype.split` does. -/
def splitChar (sep : Char) : List Char → List (List Char)
  | [] => [[]]
  | c :: rest =>
    match splitChar sep rest with
    | [] => [[c]]
    | h :: t => if c = sep then [] :: h :: t else (c :: h) :: t

/-- Embedding of the tag-configuration parse used by `handleTagsChange`
(`src/app/page.tsx` line 139): split the comma-separated string at commas,
trim each piece and drop empties; an all-whitespace input parses to no
tags. -/
def parseTags (newTags : String) : List String :=
  if jsTrim newTags ≠ "" then
    (((splitChar ',' newTags.data).map
        (fun piece => String.mk (trimWSList piece))).filter
      (fun t => 0 < t.length))
  else []

/-- Embedding of the Expression update of `handleTagsChange`
(`src/app/page.tsx` lines 137–152): when the new tag set is non-empty, the
previous Expression is spread (`...prev`) with `leftTag` set to the first
parsed tag, `rightValue` cleared and the calculation reset; with no parsed
tags the Expression is left alone. -/
def handleTagsChange (prev : ExpressionType) (newTags : String) :
    ExpressionType :=
  match parseTags newTags with
  | [] => prev
  | t0 :: _ =>
    { prev with
      leftTag := t0
      rightValue := ""
      calculation := some { leftTag := t0, operator := "+", rightValue := "" } }

/-- Embedding of the guarded `onChange` of the left-tag selector
(`src/app/page.tsx` lines 464–470): the assignment happens only when the
string is a known tag value or the empty string. -/
def updateLeftTag (tags : List ComboBoxOption) (expr : ExpressionType)
    (v : String) : ExpressionType :=
  if tags.any (fun t => t.value = v) ∨ v = "" then { expr with leftTag := v }
  else expr

/-- Embedding of the guarded `onChange` of the calculation left-tag
selector (`src/app/page.tsx` lines 551–560); the source's
`prev.calculation!` non-null assertion presumes the calculation is
present, which the page state guarantees, so the update maps over it. -/
def updateCalcLeftTag (tags : List ComboBoxOption) (expr : ExpressionType)
    (v : String) : ExpressionType :=
  if tags.any (fun t => t.value = v) ∨ v = "" then
    { expr with calculation :=
        expr.calculation.map (fun c => { c with leftTag := v }) }
  else expr

/-- Field lookup in an association list of JSON object fields. -/
def lookupField (k : String) : List (String × Json) → Option Json
  | [] => none
  | kv :: rest => if kv.1 = k then some kv.2 else lookupField k rest

/-- Field lookup on a JSON value (`none` on non-objects). -/
def jsonField (k : String) (j : Json) : Option Json :=
  match j with
  | Json.obj fields => lookupField k fields
  | _ => none

/-- The `left.type` field of a serialized comparison, used to discriminate
concrete outputs. -/
def leftTypeField (j : Json) : Option Json :=
  (jsonField "left" j).bind (fun l => jsonField "type" l)

/-- The example reference set `[{id:"Tag1"},{id:"Tag2"}]` of the spec's
external-interface section. -/
def demoTags : List ComboBoxOption :=
  [{ value := "Tag1", label := "Tag1" }, { value := "Tag2", label := "Tag2" }]

/-- A five-element option list used to exercise the pager with batch size
2. -/
def opts5 : List ComboBoxOption :=
  [{ value := "alpha1", label := "alpha1" }, { value := "alpha2", label := "alpha2" },
   { value := "alpha3", label := "alpha3" }, { value := "alpha4", label := "alpha4" },
   { value := "alpha5", label := "alpha5" }]

/-- C1: classification of a raw string against a reference set.  The code's
`{type:'tag'}` branch is the spec's kind `"reference"`, the numeric
`{type:'constant'}` branch the kind `"number"`, and the string
`{type:'constant'}` branch the kind `"string"`.  A string is classified as
a reference, with the raw string as value, exactly when it equals some
option's id; otherwise it is a number exactly when its trim is non-empty
and `Number(...)` parses it, and a string constant (carrying the raw
string, including the empty string) in every remaining case; the reference
check takes precedence, so a reference literally named `"42"` classifies
as a reference. -/
theorem c1_classification (tags : List ComboBoxOption) (s : String) :
    (tags.any (fun t => t.value = s) = true →
      analyzeSimpleValue tags s = Analysis.tag s) ∧
    (tags.any (fun t => t.value = s) = false →
      (∀ v, analyzeSimpleValue tags s ≠ Analysis.tag v) ∧
      (jsTrim s ≠ "" → ∀ n, jsToNumber s = some n →
        analyzeSimpleValue tags s = Analysis.constNum n) ∧
      (jsTrim s = "" ∨ jsToNumber s = none →
        analyzeSimpleValue tags s = Analysis.constStr s)) ∧
    analyzeSimpleValue [{ value := "42", label := "42" }] "42" =
      Analysis.tag "42" := by
  refine ⟨fun h => by simp [analyzeSimpleValue, h], fun h => ⟨?_, ?_, ?_⟩, by decide⟩
  · intro v
    cases hn : jsToNumber s with
    | none => simp [analyzeSimpleValue, h, hn]
    | some n =>
      simp only [analyzeSimpleValue, h, hn, Bool.false_eq_true, if_false]
      split <;> simp
  · intro ht n hn
    simp [analyzeSimpleValue, h, hn, ht]
  · intro hd
    rcases hd with hd | hd
    · cases hn : jsToNumber s <;> simp [analyzeSimpleValue, h, hn, hd]
    · simp [analyzeSimpleValue, h, hd]

/-- Witness for C1 at concrete inputs: a known tag, a numeric string and a
plain string. -/
theorem c1_classification_witness :
    analyzeSimpleValue demoTags "Tag2" = Analysis.tag "Tag2" ∧
    analyzeSimpleValue demoTags "5" = Analysis.constNum (JSNum.finite 5) ∧
    analyzeSimpleValue demoTags "hello" = Analysis.constStr "hello" := by
  refine ⟨(c1_classification demoTags "Tag2").1 (by decide), ?_, ?_⟩
  · exact ((c1_classification demoTags "5").2.1 (by decide)).2.1 (by decide)
      (JSNum.finite 5) (by decide)
  · exact ((c1_classification demoTags "hello").2.1 (by decide)).2.2
      (Or.inr (by decide))

/-- C2, counterexample: the claim requires the `left` slot (and the spec's
example output) to carry `type:"reference"`, but the code emits
`type:"tag"`: on the Expression `{leftTag:"Tag1", operator:"=",
rightValue:"5"}` the generated JSON differs from the claimed one at the
`left.type` field. -/
theorem c2_counterexample :
    generateJSON demoTags ValueMode.value
        { leftTag := "Tag1", operator := "=", rightValue := "5",
          calculation := some { leftTag := "Tag1", operator := "+", rightValue := "" } } ≠
      Json.obj [("type", Json.str "comparison"),
        ("left", Json.obj [("type", Json.str "reference"),
          ("value", Json.str "Tag1")]),
        ("operator", Json.str "="),
        ("right", Json.obj [("type", Json.str "constant"),
          ("value", Json.num (JSNum.finite 5))])] := by
  intro h
  have h2 := congrArg leftTypeField h
  have e1 : leftTypeField (generateJSON demoTags ValueMode.value
      { leftTag := "Tag1", operator := "=", rightValue := "5",
        calculation := some { leftTag := "Tag1", operator := "+", rightValue := "" } }) =
      some (Json.str "tag") := rfl
  rw [e1] at h2
  have h3 := Option.some.inj h2.symm
  injection h3 with h4
  exact absurd h4 (by decide)

/-- C2 as amended: with a simple right value, `toJSON` produces exactly
`{type:"comparison", left:{type:"tag", value: leftTag}, operator, right}`
— the left slot is tagged `"tag"`, not `"reference"` — and the example
Expression `{leftTag:"Tag1", operator:"=", rightValue:"5"}` compiles to
`{"type":"comparison","left":{"type":"tag","value":"Tag1"},
"operator":"=","right":{"type":"constant","value":5}}`. -/
theorem c2_json_shape (tags : List ComboBoxOption) (expr : ExpressionType) :
    generateJSON tags ValueMode.value expr =
      Json.obj [("type", Json.str "comparison"),
        ("left", Json.obj [("type", Json.str "tag"),
          ("value", Json.str expr.leftTag)]),
        ("operator", Json.str expr.operator),
        ("right", analysisToJson (analyzeSimpleValue tags expr.rightValue))] ∧
    generateJSON demoTags ValueMode.value
        { leftTag := "Tag1", operator := "=", rightValue := "5",
          calculation := some { leftTag := "Tag1", operator := "+", rightValue := "" } } =
      Json.obj [("type", Json.str "comparison"),
        ("left", Json.obj [("type", Json.str "tag"), ("value", Json.str "Tag1")]),
        ("operator", Json.str "="),
        ("right", Json.obj [("type", Json.str "constant"),
          ("value", Json.num (JSNum.finite 5))])] := by
  constructor
  · obtain ⟨l, o, r, c⟩ := expr
    cases c <;> rfl
  · rfl

/-- C3: `toJSONLogic` maps `=` to `==` and passes the other comparison
operators through; a reference renders as `{"var": name}` and a constant
as its bare literal; in value mode the rule is
`{op: [{"var": leftTag}, rendered right]}`; with a calculation active the
right slot is `{calcOp: [{"var": calc.leftTag}, rendered calc.rightValue]}`
with arithmetic operators passed through; and the example
`{leftTag:"Tag1", operator:"!=", rightValue:"Tag2"}` over
`[{id:"Tag1"},{id:"Tag2"}]` compiles to
`{"!=":[{"var":"Tag1"},{"var":"Tag2"}]}`. -/
theorem c3_jsonlogic (tags : List ComboBoxOption) (expr : ExpressionType) :
    (jsonLogicOperator "=" = "==" ∧ jsonLogicOperator "!=" = "!=" ∧
      jsonLogicOperator ">" = ">" ∧ jsonLogicOperator "<" = "<" ∧
      jsonLogicOperator ">=" = ">=" ∧ jsonLogicOperator "<=" = "<=") ∧
    (∀ v n, renderJsonLogicValue (Analysis.tag v) =
        Json.obj [("var", Json.str v)] ∧
      renderJsonLogicValue (Analysis.constNum n) = Json.num n ∧
      renderJsonLogicValue (Analysis.constStr v) = Json.str v) ∧
    generateJSONLogic tags ValueMode.value expr =
      Json.obj [(jsonLogicOperator expr.operator, Json.arr [
        Json.obj [("var", Json.str expr.leftTag)],
        renderJsonLogicValue (analyzeSimpleValue tags expr.rightValue)])] ∧
    (∀ c, expr.calculation = some c →
      (jsonLogicCalcOperator "+" = "+" ∧ jsonLogicCalcOperator "-" = "-" ∧
        jsonLogicCalcOperator "*" = "*" ∧ jsonLogicCalcOperator "/" = "/") ∧
      generateJSONLogic tags ValueMode.calculation expr =
        Json.obj [(jsonLogicOperator expr.operator, Json.arr [
          Json.obj [("var", Json.str expr.leftTag)],
          Json.obj [(jsonLogicCalcOperator c.operator, Json.arr [
            Json.obj [("var", Json.str c.leftTag)],
            renderJsonLogicValue (analyzeSimpleValue tags c.rightValue)])]])]) ∧
    generateJSONLogic demoTags ValueMode.value
        { leftTag := "Tag1", operator := "!=", rightValue := "Tag2",
          calculation := none } =
      Json.obj [("!=", Json.arr [Json.obj [("var", Json.str "Tag1")],
        Json.obj [("var", Json.str "Tag2")]])] := by
  refine ⟨by decide, fun v n => ⟨rfl, rfl, rfl⟩, ?_, ?_, rfl⟩
  · obtain ⟨l, o, r, c⟩ := expr
    cases c <;> rfl
  · intro c hc
    obtain ⟨l, o, r, cal⟩ := expr
    simp only at hc
    subst hc
    exact ⟨by decide, rfl⟩

/-- Witness for C3 at a concrete calculation: `Tag1 > (Tag2 + 3)` compiles
to the claimed nested JSONLogic rule. -/
theorem c3_jsonlogic_witness :
    generateJSONLogic demoTags ValueMode.calculation
        { leftTag := "Tag1", operator := ">", rightValue := "",
          calculation := some { leftTag := "Tag2", operator := "+", rightValue := "3" } } =
      Json.obj [(">", Json.arr [Json.obj [("var", Json.str "Tag1")],
        Json.obj [("+", Json.arr [Json.obj [("var", Json.str "Tag2")],
          Json.num (JSNum.finite 3)])]])] := by
  have h := (c3_jsonlogic demoTags
    { leftTag := "Tag1", operator := ">", rightValue := "",
      calculation := some { leftTag := "Tag2", operator := "+", rightValue := "3" } }).2.2.2.1
    { leftTag := "Tag2", operator := "+", rightValue := "3" } rfl
  exact h.2.trans rfl

/-- C4: when the term of the value-entry selector exactly equals some
option's id and is non-empty, the filter returns the full option list in
its original order, before any substring filtering. -/
theorem c4_exact_match (opts : List ComboBoxOption) (term : String)
    (hne : term ≠ "") (hmem : opts.any (fun o => o.value = term) = true) :
    smartFiltered opts term = opts := by
  have hlen : 0 < term.length := by
    cases hterm : term.data with
    | nil => exact absurd (by cases term; cases hterm; rfl) hne
    | cons c rest => simp [String.length, hterm]
  unfold smartFiltered
  rw [List.filter_eq_self]
  intro a _
  simp [hmem, hlen]

/-- Witness for C4: the term `"Tag1"` is an id of the demo set, so the
filter keeps both options. -/
theorem c4_exact_match_witness : smartFiltered demoTags "Tag1" = demoTags :=
  c4_exact_match demoTags "Tag1" (by decide) (by decide)

/-- Closed form of the pager after `k + 1` request/completion rounds with
no term change, provided every request up to the last found more items to
load. -/
theorem pagerIterate_closed (options : List ComboBoxOption) (batch : Nat) :
    ∀ k : Nat, batch * (k + 1) < (comboFiltered options "").length →
      pagerIterate options batch (k + 1) =
        { searchTerm := "", highlightedIndex := -1,
          visibleCount := min (batch * (k + 2)) ((comboFiltered options "").length),
          isLoading := false, pendingLen := none } := by
  intro k
  induction k with
  | zero =>
    intro h
    have hb : batch < (comboFiltered options "").length := by omega
    have e1 : loadMoreItems options (initCombo batch) =
        ⟨"", -1, batch, true, some ((comboFiltered options "").length)⟩ := by
      unfold loadMoreItems
      rw [if_pos ⟨by simpa [hasMoreItems, initCombo, filteredLen] using hb,
        by simp [initCombo]⟩]
      rfl
    show timerFire batch (loadMoreItems options (initCombo batch)) = _
    rw [e1]
    show (⟨"", -1, min (batch + batch) ((comboFiltered options "").length),
      false, none⟩ : ComboState) = _
    rw [show batch + batch = batch * (0 + 2) from by ring]
  | succ k ih =>
    intro h
    have heq1 : batch * (k + 1 + 1) = batch * (k + 2) := by ring
    have hk : batch * (k + 1) < (comboFiltered options "").length := by
      have hle : batch * (k + 1) ≤ batch * (k + 1 + 1) :=
        Nat.mul_le_mul_left _ (by omega)
      omega
    have hmin : min (batch * (k + 2)) ((comboFiltered options "").length) =
        batch * (k + 2) := Nat.min_eq_left (by omega)
    have e0 : pagerIterate options batch (k + 1) =
        ⟨"", -1, batch * (k + 2), false, none⟩ := by
      rw [ih hk, hmin]
    have hb2 : batch * (k + 2) < (comboFiltered options "").length := by omega
    have e1 : loadMoreItems options
        (⟨"", -1, batch * (k + 2), false, none⟩ : ComboState) =
        ⟨"", -1, batch * (k + 2), true,
          some ((comboFiltered options "").length)⟩ := by
      unfold loadMoreItems
      rw [if_pos ⟨by simpa [hasMoreItems, filteredLen] using hb2, by simp⟩]
      rfl
    show timerFire batch
      (loadMoreItems options (pagerIterate options batch (k + 1))) = _
    rw [e0, e1]
    show (⟨"", -1,
      min (batch * (k + 2) + batch) ((comboFiltered options "").length),
      false, none⟩ : ComboState) = _
    rw [show batch * (k + 2) + batch = batch * (k + 1 + 2) from by ring]

/-- C5: the pager starts at one batch (`batchSize`, default 20);
`requestMore` is a no-op while a load is pending or everything is visible,
and otherwise marks the pending state whose completion advances
`visibleCount` by one batch clamped to the filtered total and clears the
pending flag; after `k + 1` completed rounds with no term change
`visibleCount = min(batchSize * (k + 2), total)`; `visibleCount` never
decreases under requests and completions between term changes; and a term
change resets `visibleCount` to one batch regardless of the pending
state. -/
theorem c5_lazy_pager (options : List ComboBoxOption) (batch : Nat) :
    defaultBatchSize = 20 ∧
    (initCombo batch).visibleCount = batch ∧
    (∀ st : ComboState, st.isLoading = true ∨
        filteredLen options st ≤ st.visibleCount →
      loadMoreItems options st = st) ∧
    (∀ st : ComboState, st.isLoading = false →
        st.visibleCount < filteredLen options st →
      (loadMoreItems options st).isLoading = true ∧
      timerFire batch (loadMoreItems options st) =
        { st with
          visibleCount := min (st.visibleCount + batch) (filteredLen options st)
          isLoading := false
          pendingLen := none }) ∧
    (∀ k : Nat, batch * (k + 1) < (comboFiltered options "").length →
      (pagerIterate options batch (k + 1)).visibleCount =
        min (batch * (k + 2)) ((comboFiltered options "").length)) ∧
    (∀ st : ComboState, (∀ L, st.pendingLen = some L → st.visibleCount ≤ L) →
      st.visibleCount ≤ (loadMoreItems options st).visibleCount ∧
      st.visibleCount ≤ (timerFire batch st).visibleCount ∧
      (∀ L, (loadMoreItems options st).pendingLen = some L →
        (loadMoreItems options st).visibleCount ≤ L)) ∧
    (∀ (st : ComboState) (t : String),
      (setSearchTerm batch t st).visibleCount = batch) := by
  refine ⟨rfl, rfl, ?_, ?_, ?_, ?_, fun st t => rfl⟩
  · intro st h
    rcases h with h | h
    · simp [loadMoreItems, h]
    · simp [loadMoreItems, hasMoreItems, Nat.not_lt.mpr h]
  · intro st h1 h2
    have e1 : loadMoreItems options st =
        { st with
          isLoading := true
          pendingLen := some (filteredLen options st) } := by
      unfold loadMoreItems
      rw [if_pos ⟨by simpa [hasMoreItems] using h2, by simp [h1]⟩]
    rw [e1]
    exact ⟨rfl, rfl⟩
  · intro k h
    rw [pagerIterate_closed options batch k h]
  · intro st hinv
    refine ⟨?_, ?_, ?_⟩
    · simp only [loadMoreItems]
      split <;> simp
    · cases hp : st.pendingLen with
      | none => simp [timerFire, hp]
      | some L =>
        simp only [timerFire, hp]
        exact le_min (Nat.le_add_right _ _) (hinv L hp)
    · intro L hL
      by_cases hc : hasMoreItems options st = true ∧ ¬st.isLoading = true
      · unfold loadMoreItems at hL ⊢
        rw [if_pos hc] at hL ⊢
        simp only [Option.some.injEq] at hL
        subst hL
        exact Nat.le_of_lt (by simpa [hasMoreItems] using hc.1)
      · unfold loadMoreItems at hL ⊢
        rw [if_neg hc] at hL ⊢
        exact hinv L hL

/-- Witness for C5: with five options and batch 2, a request while a load
is pending is a no-op, and two completed rounds reach
`min(2 * 3, 5) = 5` visible items. -/
theorem c5_lazy_pager_witness :
    loadMoreItems opts5 (⟨"", -1, 2, true, some 5⟩ : ComboState) =
      (⟨"", -1, 2, true, some 5⟩ : ComboState) ∧
    (pagerIterate opts5 2 2).visibleCount = 5 := by
  constructor
  · exact (c5_lazy_pager opts5 2).2.2.1 _ (Or.inl rfl)
  · exact ((c5_lazy_pager opts5 2).2.2.2.2.1 1 (by decide)).trans (by decide)

/-- C6, counterexample: the scheduled lazy-load callback is not cancelled
when the search term changes.  With five options and batch 2, a request is
made under the empty term (capturing filtered length 5), the term then
changes to `"zzz"` (resetting `visibleCount` to 2; the new filtered set is
empty), and the callback still fires: `visibleCount` becomes
`min(2 + 2, 5) = 4` — a stale update applied after the term that produced
it is gone, contradicting the claimed cancellation. -/
theorem c6_counterexample :
    (setSearchTerm 2 "zzz" (loadMoreItems opts5 (initCombo 2))).visibleCount = 2 ∧
    (setSearchTerm 2 "zzz" (loadMoreItems opts5 (initCombo 2))).pendingLen = some 5 ∧
    filteredLen opts5 (setSearchTerm 2 "zzz" (loadMoreItems opts5 (initCombo 2))) = 0 ∧
    (timerFire 2 (setSearchTerm 2 "zzz" (loadMoreItems opts5 (initCombo 2)))).visibleCount = 4 := by
  decide

/-- C6 as amended: a term change leaves a pending load and its captured
filtered length untouched (nothing in the source clears the timeout), and
when the callback then fires it advances `visibleCount` by one batch
clamped to the stale captured length and clears the pending flag — applied
silently, with no error reported. -/
theorem c6_stale_callback (batch : Nat) (st : ComboState) (t : String)
    (L : Nat) (h : st.pendingLen = some L) :
    (setSearchTerm batch t st).pendingLen = some L ∧
    (setSearchTerm batch t st).isLoading = st.isLoading ∧
    timerFire batch (setSearchTerm batch t st) =
      { st with
        searchTerm := t
        highlightedIndex := -1
        visibleCount := min (batch + batch) L
        isLoading := false
        pendingLen := none } := by
  refine ⟨by simp [setSearchTerm, h], rfl, ?_⟩
  simp [setSearchTerm, timerFire, h]

/-- Witness for C6's amended statement at the counterexample trace. -/
theorem c6_stale_callback_witness :
    timerFire 2 (setSearchTerm 2 "zzz" (⟨"", -1, 2, true, some 5⟩ : ComboState)) =
      (⟨"zzz", -1, 4, false, none⟩ : ComboState) := by
  have h := (c6_stale_callback 2 (⟨"", -1, 2, true, some 5⟩ : ComboState)
    "zzz" 5 rfl).2.2
  exact h.trans (by decide)

/-- C7: in the open state with a non-empty visible list and an in-range
highlight, ArrowDown moves the highlight to
`(highlightedIndex + 1) mod visibleLength` (wrapping from the last visible
index to 0) and calls `requestMore` exactly when the new index is within 3
of the visible frontier and more items remain; ArrowUp moves the highlight
to `highlightedIndex - 1` when positive and to `visibleLength - 1`
otherwise (wrapping from 0 to the last visible index). -/
theorem c7_arrow_navigation (options : List ComboBoxOption) (st : ComboState)
    (hlen : 0 < visLen options st)
    (hlo : -1 ≤ st.highlightedIndex)
    (hhi : st.highlightedIndex < (visLen options st : Int)) :
    (arrowDown options st).highlightedIndex =
      (st.highlightedIndex + 1) % ((visLen options st : Int)) ∧
    ((st.highlightedIndex + 1) % ((visLen options st : Int)) ≥
        (visLen options st : Int) - 3 ∧ hasMoreItems options st →
      arrowDown options st =
        { loadMoreItems options st with highlightedIndex := (st.highlightedIndex + 1) % ((visLen options st : Int)) }) ∧
    (¬((st.highlightedIndex + 1) % ((visLen options st : Int)) ≥
        (visLen options st : Int) - 3 ∧ hasMoreItems options st) →
      arrowDown options st =
        { st with highlightedIndex := (st.highlightedIndex + 1) % ((visLen options st : Int)) }) ∧
    (st.highlightedIndex = (visLen options st : Int) - 1 →
      (arrowDown options st).highlightedIndex = 0) ∧
    ((arrowUp options st).highlightedIndex =
      if st.highlightedIndex > 0 then st.highlightedIndex - 1
      else (visLen options st : Int) - 1) ∧
    (st.highlightedIndex = 0 →
      (arrowUp options st).highlightedIndex = (visLen options st : Int) - 1) := by
  have hlenZ : (0 : Int) < (visLen options st : Int) := by exact_mod_cast hlen
  have key : (if st.highlightedIndex < (visLen options st : Int) - 1 then
        st.highlightedIndex + 1 else 0) =
      (st.highlightedIndex + 1) % ((visLen options st : Int)) := by
    by_cases hc : st.highlightedIndex < (visLen options st : Int) - 1
    · rw [if_pos hc, Int.emod_eq_of_lt (by omega) (by omega)]
    · rw [if_neg hc]
      have he : st.highlightedIndex = (visLen options st : Int) - 1 := by omega
      rw [he, sub_add_cancel, Int.emod_self]
  refine ⟨?_, ?_, ?_, ?_, rfl, ?_⟩
  · simp only [arrowDown]
    rw [key]
  · intro htr
    simp only [arrowDown, key]
    rw [if_pos htr]
  · intro htr
    simp only [arrowDown, key]
    rw [if_neg htr]
  · intro h
    simp only [arrowDown]
    rw [key, h, sub_add_cancel, Int.emod_self]
  · intro h
    simp [arrowUp, h]

/-- Witness for C7: with five visible options, ArrowDown from the last
index 4 wraps to 0, ArrowUp from 0 wraps to 4. -/
theorem c7_arrow_navigation_witness :
    (arrowDown opts5 (⟨"", 4, 5, false, none⟩ : ComboState)).highlightedIndex = 0 ∧
    (arrowUp opts5 (⟨"", 0, 5, false, none⟩ : ComboState)).highlightedIndex = 4 := by
  constructor
  · exact (c7_arrow_navigation opts5 (⟨"", 4, 5, false, none⟩ : ComboState)
      (by decide) (by decide) (by decide)).2.2.2.1 (by decide)
  · have h := (c7_arrow_navigation opts5 (⟨"", 0, 5, false, none⟩ : ComboState)
      (by decide) (by decide) (by decide)).2.2.2.2.2 rfl
    exact h.trans (by decide)

/-- C8, counterexample: on a reference-set change the Expression is not
fully reset to defaults — the spread `...prev` keeps the previous
comparison operator.  Starting from an Expression whose operator is `">"`
and changing the tags to `"A, B"` leaves the operator `">"`, not the
default `"="`. -/
theorem c8_counterexample :
    (handleTagsChange ⟨"Tag1", ">", "5", some ⟨"Tag1", "+", "2"⟩⟩ "A, B").operator = ">" ∧
    parseTags "A, B" = ["A", "B"] ∧
    ">" ≠ defaultComparisonOperator := by
  decide

/-- C8 as amended: whenever the reference set changes to a non-empty set,
the Expression gets `leftTag` equal to the first parsed reference, an
empty `rightValue`, and a calculation reset to the first reference with
the default arithmetic operator `"+"` and empty `rightValue` — while the
comparison operator is retained from the previous Expression, not reset to
its default. -/
theorem c8_reset_keeps_operator (prev : ExpressionType) (newTags : String)
    (t0 : String) (rest : List String) (h : parseTags newTags = t0 :: rest) :
    handleTagsChange prev newTags =
      ⟨t0, prev.operator, "", some ⟨t0, "+", ""⟩⟩ := by
  unfold handleTagsChange
  rw [h]

/-- Witness for C8's amended statement on a concrete tag change. -/
theorem c8_reset_keeps_operator_witness :
    handleTagsChange ⟨"Tag1", ">", "5", some ⟨"Tag1", "+", "2"⟩⟩ "A, B" =
      ⟨"A", ">", "", some ⟨"A", "+", ""⟩⟩ := by
  have h := c8_reset_keeps_operator ⟨"Tag1", ">", "5", some ⟨"Tag1", "+", "2"⟩⟩
    "A, B" "A" ["B"] (by decide)
  exact h.trans (by decide)

/-- C9, counterexample: the reference-only guard accepts the empty string
even though it is not the id of any option: assigning `""` to the left
operand replaces the prior value `"Tag1"` instead of being rejected. -/
theorem c9_counterexample :
    (updateLeftTag demoTags ⟨"Tag1", "=", "", some ⟨"Tag1", "+", ""⟩⟩ "").leftTag = "" ∧
    demoTags.any (fun t => t.value = "") = false ∧
    ("" : String) ≠ "Tag1" := by
  decide

/-- C9 as amended: an assignment to a reference-only field (Expression
left operand, Calculation left operand) of a string that is neither a
known option id nor the empty string is rejected silently, the prior value
retained and no exception thrown; a known id — or the empty string, the
clear action — is accepted and stored. -/
theorem c9_reference_guard (tags : List ComboBoxOption)
    (expr : ExpressionType) (v : String) :
    (tags.any (fun t => t.value = v) = false → v ≠ "" →
      updateLeftTag tags expr v = expr ∧ updateCalcLeftTag tags expr v = expr) ∧
    (tags.any (fun t => t.value = v) = true ∨ v = "" →
      (updateLeftTag tags expr v).leftTag = v ∧
      (updateCalcLeftTag tags expr v).calculation =
        expr.calculation.map (fun c => { c with leftTag := v })) := by
  constructor
  · intro h1 h2
    constructor
    · simp [updateLeftTag, h1, h2]
    · simp [updateCalcLeftTag, h1, h2]
  · intro h
    rcases h with h | h <;>
      exact ⟨by simp [updateLeftTag, h], by simp [updateCalcLeftTag, h]⟩

/-- Witness for C9's amended statement: an unknown name is rejected with
the prior value retained, a known id is stored. -/
theorem c9_reference_guard_witness :
    updateLeftTag demoTags ⟨"Tag1", "=", "", none⟩ "Nope" =
      ⟨"Tag1", "=", "", none⟩ ∧
    (updateLeftTag demoTags ⟨"Tag1", "=", "", none⟩ "Tag2").leftTag = "Tag2" := by
  constructor
  · exact ((c9_reference_guard demoTags ⟨"Tag1", "=", "", none⟩ "Nope").1
      (by decide) (by decide)).1
  · exact ((c9_reference_guard demoTags ⟨"Tag1", "=", "", none⟩ "Tag2").2
      (Or.inl (by decide))).1

/-- C10: every input change of the free-text value selector commits
immediately — the typed text is stored in the input and pushed through
`onChange` into the bound Expression field at once, with the dropdown
state untouched — and Enter with no valid highlight only closes the
dropdown, leaving the committed value and input text unchanged. -/
theorem c10_immediate_commit (options : List ComboBoxOption) (batch : Nat)
    (st : SmartState) (t : String) :
    (smartInputChange batch st t).bound = t ∧
    (smartInputChange batch st t).inputValue = t ∧
    (smartInputChange batch st t).isOpen = st.isOpen ∧
    (¬(0 ≤ st.highlightedIndex ∧
        st.highlightedIndex < ((smartVisible options st).length : Int)) →
      smartEnter options st = { st with isOpen := false }) := by
  refine ⟨rfl, rfl, rfl, ?_⟩
  intro h
  unfold smartEnter
  rw [if_neg h]

/-- Witness for C10: typing `"he"` commits `"he"` at once, and Enter with
no highlight merely closes the dropdown. -/
theorem c10_immediate_commit_witness :
    (smartInputChange 20 (⟨true, "", -1, 20, ""⟩ : SmartState) "he").bound = "he" ∧
    smartEnter demoTags (⟨true, "he", -1, 20, "he"⟩ : SmartState) =
      (⟨false, "he", -1, 20, "he"⟩ : SmartState) := by
  constructor
  · exact (c10_immediate_commit demoTags 20 ⟨true, "", -1, 20, ""⟩ "he").1
  · have h := (c10_immediate_commit demoTags 20
      (⟨true, "he", -1, 20, "he"⟩ : SmartState) "x").2.2.2 (by decide)
    exact h.trans (by decide)

end ExprBuilder
